import Mathlib

/-!
Verification development for the template subsystem of the
`python-pipeline-creator` repository
(`template_schema.py`, `template_manager.py`, `template_inheritance.py`,
`template_service.py`).

The Python code manipulates JSON-like documents (nested dicts, lists and
scalars).  We embed those documents as the inductive type `JValue`; Python
dicts are modelled as association lists in insertion order, with `objGet`
(first-match lookup, i.e. `d[k]` / `d.get(k)`) and `objSet` (in-place
assignment `d[k] = v`: replace the binding at its existing position, else
append).  Python `None` is `JValue.null`.  Floats do not occur in any of the
modelled flows and are omitted from the value type.

Console output (`print_error` etc.) is a side effect the code never reads
back; it is dropped from the model.  Filesystem paths (`template_path`,
the store directories) are modelled as in-memory state: the combined
template list for the Store's read operations, and a name-keyed association
list for the user tier's directory contents where mutation matters.
-/

/-- JSON-like values manipulated by the template subsystem. -/
inductive JValue where
  | null : JValue
  | bool : Bool → JValue
  | int : Int → JValue
  | str : String → JValue
  | arr : List JValue → JValue
  | obj : List (String × JValue) → JValue

/-- Keys of an association list (a Python dict's key view, in order). -/
def keys {α : Type} (m : List (String × α)) : List String :=
  m.map Prod.fst

/-- Python dict lookup `d[k]` / `d.get(k)`: the binding of the key, if present.
Bindings are unique in every dict the source builds, so first-match lookup
is exact. -/
def objGet {α : Type} : List (String × α) → String → Option α
  | [], _ => none
  | (k', v) :: rest, k => if k' = k then some v else objGet rest k

/-- Python dict assignment `d[k] = v`: replace the binding in place if the key
is present, otherwise append the new binding at the end. -/
def objSet {α : Type} : List (String × α) → String → α → List (String × α)
  | [], k, v => [(k, v)]
  | (k', v') :: rest, k, v =>
    if k' = k then (k, v) :: rest else (k', v') :: objSet rest k v

/-- Python `d.get(k)` with its default of `None`. -/
def pyGet (d : List (String × JValue)) (k : String) : JValue :=
  (objGet d k).getD JValue.null

/-- Python `isinstance(value, str)`. -/
def isinstance_str : JValue → Bool
  | JValue.str _ => true
  | _ => false

/-- Python `isinstance(value, int)`.  In Python `bool` is a subclass of `int`,
so a boolean value satisfies this check. -/
def isinstance_int : JValue → Bool
  | JValue.int _ => true
  | JValue.bool _ => true
  | _ => false

/-- Python `isinstance(value, bool)`. -/
def isinstance_bool : JValue → Bool
  | JValue.bool _ => true
  | _ => false

/-- Python `isinstance(value, list)`. -/
def isinstance_list : JValue → Bool
  | JValue.arr _ => true
  | _ => false

/-- Python `isinstance(value, dict)`. -/
def isinstance_dict : JValue → Bool
  | JValue.obj _ => true
  | _ => false

/-- Python `value is None`. -/
def isNull : JValue → Bool
  | JValue.null => true
  | _ => false

/-- Numeric content of a value that passed `isinstance(value, int)`:
Python treats `True` as `1` and `False` as `0` in comparisons. -/
def toIntVal : JValue → Int
  | JValue.int n => n
  | JValue.bool b => if b then 1 else 0
  | _ => 0

/-- Python `value in options` for a list of strings: string equality against
some member; a non-string value equals no string. -/
def strMember (v : JValue) (options : List String) : Bool :=
  match v with
  | JValue.str s => options.contains s
  | _ => false

/-! ### `template_schema.py` -/

/-- Python `TemplateCategory` enumeration (`template_schema.py`). -/
inductive TemplateCategory where
  | WEB_FRONTEND | WEB_BACKEND | API | MICROSERVICE | MOBILE
  | DESKTOP | DATA_PROCESSING | ML_AI | DEVOPS | CUSTOM
deriving DecidableEq, Repr

/-- The `.value` string of a `TemplateCategory` member. -/
def TemplateCategory.value : TemplateCategory → String
  | WEB_FRONTEND => "web-frontend"
  | WEB_BACKEND => "web-backend"
  | API => "api"
  | MICROSERVICE => "microservice"
  | MOBILE => "mobile"
  | DESKTOP => "desktop"
  | DATA_PROCESSING => "data-processing"
  | ML_AI => "ml-ai"
  | DEVOPS => "devops"
  | CUSTOM => "custom"

/-- Python `TemplateCategory(s)`: the member with that value, or a `ValueError`
(modelled as `none`). -/
def TemplateCategory.ofValue (s : String) : Option TemplateCategory :=
  if s = "web-frontend" then some WEB_FRONTEND
  else if s = "web-backend" then some WEB_BACKEND
  else if s = "api" then some API
  else if s = "microservice" then some MICROSERVICE
  else if s = "mobile" then some MOBILE
  else if s = "desktop" then some DESKTOP
  else if s = "data-processing" then some DATA_PROCESSING
  else if s = "ml-ai" then some ML_AI
  else if s = "devops" then some DEVOPS
  else if s = "custom" then some CUSTOM
  else none

/-- Python `ParameterType` enumeration (`template_schema.py`). -/
inductive ParameterType where
  | STRING | INTEGER | BOOLEAN | ARRAY | OBJECT | SELECT
deriving DecidableEq, Repr

/-- The `.value` string of a `ParameterType` member. -/
def ParameterType.value : ParameterType → String
  | STRING => "string"
  | INTEGER => "integer"
  | BOOLEAN => "boolean"
  | ARRAY => "array"
  | OBJECT => "object"
  | SELECT => "select"

/-- Python `ParameterType(s)`: the member with that value, or a `ValueError`
(modelled as `none`). -/
def ParameterType.ofValue (s : String) : Option ParameterType :=
  if s = "string" then some STRING
  else if s = "integer" then some INTEGER
  else if s = "boolean" then some BOOLEAN
  else if s = "array" then some ARRAY
  else if s = "object" then some OBJECT
  else if s = "select" then some SELECT
  else none

/-- Python `TemplateParameter` dataclass (`template_schema.py`).  The Python field
defaults are `default=None`, `required=True`, and `None` for the optional
fields; `min_value`/`max_value` are integers in every modelled flow (no
floats occur). -/
structure TemplateParameter where
  name : String
  type : ParameterType
  description : String
  default : JValue
  required : Bool
  options : Option (List String)
  min_value : Option Int
  max_value : Option Int
  pattern : Option String

/-- Python `TemplateParameter.validate` (`template_schema.py`, lines 49-77),
translated clause for clause: the `None` check, the type `elif` chain
(where Python's `isinstance(value, int)` also accepts booleans), and the
range checks that run only for `INTEGER` with a numeric value. -/
def TemplateParameter.validate (p : TemplateParameter) (value : JValue) :
    Bool × String :=
  if isNull value then
    if p.required then (false, "Parameter '" ++ p.name ++ "' is required")
    else (true, "")
  else if p.type = ParameterType.STRING ∧ isinstance_str value = false then
    (false, "Parameter '" ++ p.name ++ "' must be a string")
  else if p.type = ParameterType.INTEGER ∧ isinstance_int value = false then
    (false, "Parameter '" ++ p.name ++ "' must be an integer")
  else if p.type = ParameterType.BOOLEAN ∧ isinstance_bool value = false then
    (false, "Parameter '" ++ p.name ++ "' must be a boolean")
  else if p.type = ParameterType.ARRAY ∧ isinstance_list value = false then
    (false, "Parameter '" ++ p.name ++ "' must be an array")
  else if p.type = ParameterType.OBJECT ∧ isinstance_dict value = false then
    (false, "Parameter '" ++ p.name ++ "' must be an object")
  else if p.type = ParameterType.SELECT ∧ strMember value (p.options.getD []) = false then
    (false, "Parameter '" ++ p.name ++ "' must be one of: "
      ++ String.intercalate ", " (p.options.getD []))
  else if p.type = ParameterType.INTEGER ∧ isinstance_int value = true then
    match p.min_value with
    | some mn =>
      if toIntVal value < mn then
        (false, "Parameter '" ++ p.name ++ "' must be >= " ++ toString mn)
      else
        match p.max_value with
        | some mx =>
          if mx < toIntVal value then
            (false, "Parameter '" ++ p.name ++ "' must be <= " ++ toString mx)
          else (true, "")
        | none => (true, "")
    | none =>
      match p.max_value with
      | some mx =>
        if mx < toIntVal value then
          (false, "Parameter '" ++ p.name ++ "' must be <= " ++ toString mx)
        else (true, "")
      | none => (true, "")
  else (true, "")

/-- Python `TemplateSchema` dataclass (`template_schema.py`).  The Python field
`extends` is a Lean keyword and is rendered `extendsName`. -/
structure TemplateSchema where
  name : String
  version : String
  description : String
  category : TemplateCategory
  author : String
  tags : List String
  parameters : List TemplateParameter
  extendsName : Option String
  requirements : Option (List String)

/-- Python `TemplateSchema.validate_parameters` (`template_schema.py`, lines
150-160): run every declared parameter's validation against
`values.get(name)` (missing keys become `None`), collecting every failure
message; the boolean is `len(errors) == 0`. -/
def TemplateSchema.validate_parameters (s : TemplateSchema)
    (values : List (String × JValue)) : Bool × List String :=
  let errors := s.parameters.foldl (fun errs param =>
    let r := param.validate (pyGet values param.name)
    if r.1 then errs else errs ++ [r.2]) []
  (errors.isEmpty, errors)

/-- Python `TemplateSchema.get_default_values` (`template_schema.py`, lines
162-168): the dict of parameters whose declared default is not `None`. -/
def TemplateSchema.get_default_values (s : TemplateSchema) :
    List (String × JValue) :=
  s.parameters.foldl (fun acc p =>
    if isNull p.default then acc else objSet acc p.name p.default) []

/-! ### `template_manager.py`: the `Template` dataclass and the Store -/

/-- Python `Template` dataclass (`template_manager.py`): one schema plus one
configuration body (a JSON object).  The `template_path` field is
filesystem metadata never consulted by the modelled flows and is omitted. -/
structure Template where
  schema : TemplateSchema
  config : List (String × JValue)

/-- The placeholder token `"{{ name }}"` built by `apply_parameters`. -/
def placeholderToken (name : String) : String :=
  "\x7b\x7b " ++ name ++ " \x7d\x7d"

/-- One pass of Python `str.replace`: every non-overlapping occurrence of
`pat` (scanning left to right) is replaced by `rep`.  (The guard against an
empty pattern is implicit in Python's `str.replace`; every placeholder
token the source builds is non-empty.) -/
def replaceChars (pat rep : List Char) : List Char → List Char
  | [] => []
  | c :: rest =>
    if h : pat ≠ [] ∧ pat.isPrefixOf (c :: rest) = true then
      rep ++ replaceChars pat rep ((c :: rest).drop pat.length)
    else
      c :: replaceChars pat rep rest
termination_by l => l.length
decreasing_by
  · simp only [List.length_drop, List.length_cons]
    have hp : 0 < pat.length := List.length_pos.mpr h.1
    omega
  · simp only [List.length_cons]; omega

/-- Python `s.replace(pat, rep)` over our character-list view of strings. -/
def strReplace (s pat rep : String) : String :=
  ⟨replaceChars pat.data rep.data s.data⟩

mutual
/-- Parameter substitution inside a configuration value.  The source
(`Template.apply_parameters`, `template_manager.py` lines 40-49) serializes
the config with `json.dumps`, string-replaces `"{{ name }}"` with the
parameter value (textually for string values, in its serialized quoted form
for non-string values), and reparses.  On the documents the subsystem
builds, that equals this structural substitution on string leaves: a string
leaf has the placeholder occurrences replaced when the parameter value is a
string, and a leaf exactly equal to the placeholder becomes the value when
it is not.  (Occurrences inside dict keys, which the textual replace would
also touch, do not occur in any modelled flow.) -/
def substValue (pname : String) (pvalue : JValue) : JValue → JValue
  | JValue.str s =>
    match pvalue with
    | JValue.str v => JValue.str (strReplace s (placeholderToken pname) v)
    | _ => if s = placeholderToken pname then pvalue else JValue.str s
  | JValue.arr xs => JValue.arr (substList pname pvalue xs)
  | JValue.obj kvs => JValue.obj (substPairs pname pvalue kvs)
  | JValue.null => JValue.null
  | JValue.bool b => JValue.bool b
  | JValue.int n => JValue.int n

/-- Substitution mapped over a JSON sequence. -/
def substList (pname : String) (pvalue : JValue) : List JValue → List JValue
  | [] => []
  | x :: xs => substValue pname pvalue x :: substList pname pvalue xs

/-- Substitution mapped over a JSON object's values. -/
def substPairs (pname : String) (pvalue : JValue) :
    List (String × JValue) → List (String × JValue)
  | [] => []
  | (k, v) :: rest => (k, substValue pname pvalue v) :: substPairs pname pvalue rest
end

/-- The `for param_name, param_value in final_params.items()` replacement
loop of `Template.apply_parameters`. -/
def substConfig (config : List (String × JValue))
    (final_params : List (String × JValue)) : List (String × JValue) :=
  final_params.foldl (fun cfg fp => substPairs fp.1 fp.2 cfg) config

/-- Python `Template.apply_parameters` (`template_manager.py`, lines 29-49):
validate the supplied parameters against the schema; on failure raise
`TemplateValidationError` with all messages joined (modelled as
`Except.error`); on success layer the supplied parameters over the schema
defaults and substitute each placeholder in the config body. -/
def Template.apply_parameters (t : Template)
    (parameters : List (String × JValue)) :
    Except String (List (String × JValue)) :=
  let r := t.schema.validate_parameters parameters
  if r.1 then
    let final_params := parameters.foldl
      (fun acc kv => objSet acc kv.1 kv.2) t.schema.get_default_values
    Except.ok (substConfig t.config final_params)
  else
    Except.error ("Parameter validation failed: " ++ String.intercalate "; " r.2)

/-- Python `TemplateManager.get_template` (`template_manager.py`, lines 81-90) with
`version=None`, over the combined list the Store's `list_templates` returns
(predefined then user tier): the first template whose schema name matches. -/
def TemplateManager.get_template (store : List Template)
    (template_name : String) : Option Template :=
  store.find? (fun t => t.schema.name = template_name)

/-! ### `template_inheritance.py`: the Composer -/

/-- The inner `deep_merge` of `TemplateInheritance._merge_configs`
(`template_inheritance.py`, lines 78-94): fold the override dict's bindings
into a copy of the base; a key whose values are dicts on both sides is
merged recursively, a key whose values are lists on both sides is
concatenated (base elements first), and any other binding overwrites.
The loop body's `isinstance` test on the override value is expressed here
by the pattern and the test on the base value by the inner match; the
branches are otherwise the source's. -/
def TemplateInheritance.deep_merge :
    List (String × JValue) → List (String × JValue) → List (String × JValue)
  | result, [] => result
  | result, (key, JValue.obj o) :: rest =>
    (match objGet result key with
      | some (JValue.obj b) =>
        TemplateInheritance.deep_merge
          (objSet result key (JValue.obj (TemplateInheritance.deep_merge b o))) rest
      | _ =>
        TemplateInheritance.deep_merge (objSet result key (JValue.obj o)) rest)
  | result, (key, JValue.arr o) :: rest =>
    (match objGet result key with
      | some (JValue.arr b) =>
        TemplateInheritance.deep_merge (objSet result key (JValue.arr (b ++ o))) rest
      | _ =>
        TemplateInheritance.deep_merge (objSet result key (JValue.arr o)) rest)
  | result, (key, value) :: rest =>
    TemplateInheritance.deep_merge (objSet result key value) rest

/-- Python `TemplateInheritance._merge_configs` is exactly `deep_merge` applied to
the two config bodies. -/
def TemplateInheritance._merge_configs
    (base_config child_config : List (String × JValue)) :
    List (String × JValue) :=
  TemplateInheritance.deep_merge base_config child_config

/-- Python `TemplateService._merge_configs` (`template_service.py`, lines 169-181):
unlike the Composer's merge, only dict-dict bindings recurse; every other
binding (lists included) is overwritten by the template value.  As in
`TemplateInheritance.deep_merge`, the loop body's `isinstance` tests are
split between the pattern and the inner match. -/
def TemplateService._merge_configs :
    List (String × JValue) → List (String × JValue) → List (String × JValue)
  | merged, [] => merged
  | merged, (key, JValue.obj o) :: rest =>
    (match objGet merged key with
      | some (JValue.obj b) =>
        TemplateService._merge_configs
          (objSet merged key (JValue.obj (TemplateService._merge_configs b o))) rest
      | _ =>
        TemplateService._merge_configs (objSet merged key (JValue.obj o)) rest)
  | merged, (key, value) :: rest =>
    TemplateService._merge_configs (objSet merged key value) rest

/-- Python `TemplateInheritance._merge_schemas` (`template_inheritance.py`, lines
52-76): child parameters override base parameters keyed by name (the dict
build preserves base insertion order, child-only names appended); tags and
requirements are set unions (Python's `list(set(...))` order is
unspecified; `dedup` of the concatenation is the deterministic stand-in,
and no modelled claim depends on that order); the remaining fields come
from the child. -/
def TemplateInheritance._merge_schemas (base_schema child_schema : TemplateSchema) :
    TemplateSchema :=
  let base_params := base_schema.parameters.foldl
    (fun acc p => objSet acc p.name p) []
  let merged_params := child_schema.parameters.foldl
    (fun acc p => objSet acc p.name p) base_params
  { name := child_schema.name
    version := child_schema.version
    description := child_schema.description
    category := child_schema.category
    author := child_schema.author
    tags := (base_schema.tags ++ child_schema.tags).dedup
    parameters := merged_params.map Prod.snd
    extendsName := child_schema.extendsName
    requirements := some (((base_schema.requirements.getD [])
      ++ (child_schema.requirements.getD [])).dedup) }

/-- Python `TemplateInheritance._merge_templates` (`template_inheritance.py`,
lines 38-50). -/
def TemplateInheritance._merge_templates (base_template child_template : Template) :
    Template :=
  { schema := TemplateInheritance._merge_schemas base_template.schema child_template.schema
    config := TemplateInheritance._merge_configs base_template.config child_template.config }

/-- Python `TemplateInheritance.resolve_template` (`template_inheritance.py`,
lines 20-36), with an explicit recursion-depth budget standing for
Python's call stack: the source recurses with no cycle guard, so `none`
(the budget running out at every depth) models the `RecursionError` the
Python process raises on a cyclic `extends` chain. -/
def TemplateInheritance.resolve_template (store : List Template) :
    Nat → Template → Option Template
  | 0, _ => none
  | fuel + 1, template =>
    match template.schema.extendsName with
    | none => some template
    | some base_name =>
      match TemplateManager.get_template store base_name with
      | none => some template
      | some base_template =>
        match TemplateInheritance.resolve_template store fuel base_template with
        | none => none
        | some resolved_base =>
          some (TemplateInheritance._merge_templates resolved_base template)

/-- The `while` loop of `TemplateInheritance.get_inheritance_chain`
(`template_inheritance.py`, lines 147-166): append the current name, stop
when its template is missing or declares no base, and stop (after the
append) when the next name is already in the chain.  The loop appends a
fresh name every iteration, so `store.length + 1` iterations always
suffice; the fuel argument only makes that bound explicit. -/
def TemplateInheritance.chainLoop (store : List Template) :
    Nat → List String → String → List String
  | 0, chain, _ => chain
  | fuel + 1, chain, current =>
    let chain' := chain ++ [current]
    match TemplateManager.get_template store current with
    | none => chain'
    | some t =>
      match t.schema.extendsName with
      | none => chain'
      | some next =>
        if next ∈ chain' then chain'
        else TemplateInheritance.chainLoop store fuel chain' next

/-- Python `TemplateInheritance.get_inheritance_chain` (`template_inheritance.py`,
lines 147-166). -/
def TemplateInheritance.get_inheritance_chain (store : List Template)
    (template_name : String) : List String :=
  TemplateInheritance.chainLoop store (store.length + 1) [] template_name

/-- Python `TemplateInheritance.validate_inheritance` (`template_inheritance.py`,
lines 168-183): a circular-inheritance error when the chain holds a
duplicate name (`len(chain) != len(set(chain))`), then a not-found error
for every chain entry without a stored template. -/
def TemplateInheritance.validate_inheritance (store : List Template)
    (template_name : String) : Bool × List String :=
  let chain := TemplateInheritance.get_inheritance_chain store template_name
  let errors :=
    (if chain.length ≠ chain.dedup.length then ["Circular inheritance detected"] else [])
    ++ chain.filterMap (fun n =>
      if (TemplateManager.get_template store n).isNone then
        some ("Template '" ++ n ++ "' not found in inheritance chain")
      else none)
  (errors.isEmpty, errors)

/-! ### `template_service.py`: the Apply Service -/

/-- The `template` metadata block `apply_template` attaches to the merged
document (`template_service.py`, lines 58-63); `applied_at` stays `None`. -/
def templateMetadata (template : Template)
    (parameters : List (String × JValue)) : JValue :=
  JValue.obj [("name", JValue.str template.schema.name),
    ("version", JValue.str template.schema.version),
    ("applied_at", JValue.null),
    ("parameters", JValue.obj parameters)]

/-- Python `TemplateService.apply_template` (`template_service.py`, lines 24-79)
over in-memory state: `existing` is the content of the project's
`pipeline.json` (`none` when the file does not exist), and the returned
pair is the boolean result together with the file content after the call.
A missing template and a `TemplateValidationError` from
`apply_parameters` are the caught failure paths; both return `False`
before the configuration file is written. -/
def TemplateService.apply_template (store : List Template)
    (template_name : String) (existing : Option (List (String × JValue)))
    (parameters : List (String × JValue)) :
    Bool × Option (List (String × JValue)) :=
  match TemplateManager.get_template store template_name with
  | none => (false, existing)
  | some template =>
    match template.apply_parameters parameters with
    | Except.error _ => (false, existing)
    | Except.ok config =>
      let merged_config :=
        match existing with
        | some existing_config => TemplateService._merge_configs existing_config config
        | none => config
      let final_config := objSet merged_config "template"
        (templateMetadata template parameters)
      (true, some final_config)

/-! ### Serialization: `TemplateSchema.to_dict` / `from_dict` -/

/-- Serialize an optional string the way the Python dataclass fields reach a
JSON document: `None` becomes the document's `null`. -/
def optStr : Option String → JValue
  | none => JValue.null
  | some s => JValue.str s

/-- Serialize an optional string list (the `options`, `requirements`
fields). -/
def optStrList : Option (List String) → JValue
  | none => JValue.null
  | some l => JValue.arr (l.map JValue.str)

/-- Serialize an optional integer (the `min_value`, `max_value` fields). -/
def optInt : Option Int → JValue
  | none => JValue.null
  | some n => JValue.int n

/-- A Python list comprehension whose body may raise: the whole list, or a
failure as soon as any element fails. -/
def optionMapM {α β : Type} (f : α → Option β) : List α → Option (List β)
  | [] => some []
  | x :: xs =>
    match f x, optionMapM f xs with
    | some y, some ys => some (y :: ys)
    | _, _ => none

/-- Read a document value as a string; a missing key or another runtime
type is a failure of the typed model (in Python it would surface later as
an attribute of the wrong type, or raise at the enum/iteration sites). -/
def asStr : Option JValue → Option String
  | some (JValue.str s) => some s
  | _ => none

/-- Read a document value as an optional string: `null`/absent is `None`. -/
def asOptStr : JValue → Option (Option String)
  | JValue.null => some none
  | JValue.str s => some (some s)
  | _ => none

/-- Read a document value as an optional integer. -/
def asOptInt : JValue → Option (Option Int)
  | JValue.null => some none
  | JValue.int n => some (some n)
  | _ => none

/-- Read an element of a string list. -/
def asStrElem : JValue → Option String
  | JValue.str s => some s
  | _ => none

/-- Read a document value as an optional string list. -/
def asOptStrList : JValue → Option (Option (List String))
  | JValue.null => some none
  | JValue.arr xs => (optionMapM asStrElem xs).map some
  | _ => none

/-- The parameter-object builder inside `TemplateSchema.to_dict`
(`template_schema.py`, lines 134-147): every field is written, absent
optionals as `null`. -/
def TemplateParameter.to_dict (p : TemplateParameter) : JValue :=
  JValue.obj [("name", JValue.str p.name),
    ("type", JValue.str p.type.value),
    ("description", JValue.str p.description),
    ("default", p.default),
    ("required", JValue.bool p.required),
    ("options", optStrList p.options),
    ("min_value", optInt p.min_value),
    ("max_value", optInt p.max_value),
    ("pattern", optStr p.pattern)]

/-- The `TemplateParameter(...)` construction inside
`TemplateSchema.from_dict` (`template_schema.py`, lines 96-109):
`p['name']`, `ParameterType(p['type'])` and `p['description']` raise on a
missing key or unknown enum value (modelled as `none`); the remaining
fields use `p.get(...)` with `None` (and `True` for `required`) as
defaults. -/
def TemplateParameter.from_dict : JValue → Option TemplateParameter
  | JValue.obj p => do
    let name ← asStr (objGet p "name")
    let ty ← (asStr (objGet p "type")).bind ParameterType.ofValue
    let description ← asStr (objGet p "description")
    let default := pyGet p "default"
    let required ← match objGet p "required" with
      | none => some true
      | some (JValue.bool b) => some b
      | some _ => none
    let options ← asOptStrList (pyGet p "options")
    let min_value ← asOptInt (pyGet p "min_value")
    let max_value ← asOptInt (pyGet p "max_value")
    let pattern ← asOptStr (pyGet p "pattern")
    some
      { name := name
        type := ty
        description := description
        default := default
        required := required
        options := options
        min_value := min_value
        max_value := max_value
        pattern := pattern }
  | _ => none

/-- Python `TemplateSchema.to_dict` (`template_schema.py`, lines 123-148), keys in
source order; `extends` and `requirements` serialize to `null` when
absent. -/
def TemplateSchema.to_dict (s : TemplateSchema) : JValue :=
  JValue.obj [("name", JValue.str s.name),
    ("version", JValue.str s.version),
    ("description", JValue.str s.description),
    ("category", JValue.str s.category.value),
    ("author", JValue.str s.author),
    ("tags", JValue.arr (s.tags.map JValue.str)),
    ("extends", optStr s.extendsName),
    ("requirements", optStrList s.requirements),
    ("parameters", JValue.arr (s.parameters.map TemplateParameter.to_dict))]

/-- Python `TemplateSchema.from_dict` (`template_schema.py`, lines 93-121):
`data['name']`, `data['version']`, `data['description']`,
`TemplateCategory(data['category'])` and `data['author']` raise on a
missing key or unknown category (modelled as `none`);
`data.get('parameters', [])` and `data.get('tags', [])` default to empty
lists; `extends` and `requirements` use `data.get(...)`, reading `null` as
`None`. -/
def TemplateSchema.from_dict : JValue → Option TemplateSchema
  | JValue.obj data => do
    let paramsList ← match objGet data "parameters" with
      | none => some []
      | some (JValue.arr xs) => some xs
      | some _ => none
    let parameters ← optionMapM TemplateParameter.from_dict paramsList
    let name ← asStr (objGet data "name")
    let version ← asStr (objGet data "version")
    let description ← asStr (objGet data "description")
    let category ← (asStr (objGet data "category")).bind TemplateCategory.ofValue
    let author ← asStr (objGet data "author")
    let tags ← match objGet data "tags" with
      | none => some []
      | some (JValue.arr xs) => optionMapM asStrElem xs
      | some _ => none
    let ext ← asOptStr (pyGet data "extends")
    let requirements ← asOptStrList (pyGet data "requirements")
    some
      { name := name
        version := version
        description := description
        category := category
        author := author
        tags := tags
        parameters := parameters
        extendsName := ext
        requirements := requirements }
  | _ => none

/-! ### `TemplateManager.create_template` -/

/-- The user tier's directory contents: template name to the pair of stored
documents (`template.json` as a parsed schema, `config.json`). -/
def UserStore : Type := List (String × (TemplateSchema × List (String × JValue)))

/-- Python `TemplateManager.create_template` (`template_manager.py`, lines
92-133) over the user tier's state: `template_dir.mkdir(exist_ok=True)`
never fails on an existing directory, the schema is rebuilt through
`TemplateSchema.from_dict` (whose failure, modelled as `none`, is the
uncaught exception path), and both documents are then written
unconditionally, replacing any previous content of the directory. -/
def TemplateManager.create_template (user_store : UserStore)
    (name description : String) (category : TemplateCategory) (author : String)
    (config : List (String × JValue)) (parameters : List JValue)
    (tags : List String) (ext : Option String) :
    UserStore × Option Template :=
  let schema_data := JValue.obj [("name", JValue.str name),
    ("version", JValue.str "1.0.0"),
    ("description", JValue.str description),
    ("category", JValue.str category.value),
    ("author", JValue.str author),
    ("tags", JValue.arr (tags.map JValue.str)),
    ("parameters", JValue.arr parameters),
    ("extends", optStr ext)]
  match TemplateSchema.from_dict schema_data with
  | none => (user_store, none)
  | some schema =>
    (objSet user_store name (schema, config),
      some { schema := schema, config := config })

/-! ### Association-list lemmas -/

theorem objGet_objSet_self {α : Type} (m : List (String × α)) (k : String) (v : α) :
    objGet (objSet m k v) k = some v := by
  induction m with
  | nil => simp [objSet, objGet]
  | cons kv rest ih =>
    obtain ⟨k', v'⟩ := kv
    by_cases h : k' = k
    · simp [objSet, objGet, h]
    · simp [objSet, objGet, h, ih]

theorem objGet_objSet_ne {α : Type} (m : List (String × α)) (k k2 : String) (v : α)
    (h : k2 ≠ k) : objGet (objSet m k2 v) k = objGet m k := by
  induction m with
  | nil => simp [objSet, objGet, h]
  | cons kv rest ih =>
    obtain ⟨k', v'⟩ := kv
    by_cases h' : k' = k2
    · subst h'; simp [objSet, objGet, h]
    · simp [objSet, objGet, h', ih]

theorem objGet_eq_none_of_not_mem {α : Type} (m : List (String × α)) (k : String)
    (h : k ∉ keys m) : objGet m k = none := by
  induction m with
  | nil => simp [objGet]
  | cons kv rest ih =>
    obtain ⟨k', v'⟩ := kv
    simp only [keys, List.map_cons, List.mem_cons] at h
    push_neg at h
    simp [objGet, Ne.symm h.1, ih (by simp [keys, h.2])]

theorem objGet_cons_self {α : Type} (k : String) (v : α) (rest : List (String × α)) :
    objGet ((k, v) :: rest) k = some v := by
  simp [objGet]

theorem objGet_cons_ne {α : Type} (k k0 : String) (v : α) (rest : List (String × α))
    (h : k0 ≠ k) : objGet ((k0, v) :: rest) k = objGet rest k := by
  simp [objGet, h]

/-! ### The per-key content of the two deep merges -/

/-- The value the Composer's `deep_merge` binds at a key present in the
override: dict-dict recurses, list-list concatenates base-first, anything
else is the override value. -/
def mergeAtKey (bv : Option JValue) (v : JValue) : JValue :=
  match bv, v with
  | some (JValue.obj b), JValue.obj o => JValue.obj (TemplateInheritance.deep_merge b o)
  | some (JValue.arr b), JValue.arr o => JValue.arr (b ++ o)
  | _, _ => v

/-- The value the Apply Service's `_merge_configs` binds at a key present in
the template config: dict-dict recurses, anything else (lists included) is
the template value. -/
def serviceMergeAtKey (bv : Option JValue) (v : JValue) : JValue :=
  match bv, v with
  | some (JValue.obj b), JValue.obj o => JValue.obj (TemplateService._merge_configs b o)
  | _, _ => v

theorem deep_merge_cons (result : List (String × JValue)) (key : String)
    (value : JValue) (rest : List (String × JValue)) :
    TemplateInheritance.deep_merge result ((key, value) :: rest)
    = TemplateInheritance.deep_merge
        (objSet result key (mergeAtKey (objGet result key) value)) rest := by
  cases hb : objGet result key with
  | none => cases value <;> simp [TemplateInheritance.deep_merge, mergeAtKey, hb]
  | some b => cases b <;> cases value <;>
      simp [TemplateInheritance.deep_merge, mergeAtKey, hb]

theorem service_merge_cons (merged : List (String × JValue)) (key : String)
    (value : JValue) (rest : List (String × JValue)) :
    TemplateService._merge_configs merged ((key, value) :: rest)
    = TemplateService._merge_configs
        (objSet merged key (serviceMergeAtKey (objGet merged key) value)) rest := by
  cases hb : objGet merged key with
  | none => cases value <;> simp [TemplateService._merge_configs, serviceMergeAtKey, hb]
  | some b => cases b <;> cases value <;>
      simp [TemplateService._merge_configs, serviceMergeAtKey, hb]

theorem deep_merge_objGet (ov : List (String × JValue)) :
    ∀ (res : List (String × JValue)) (k : String), (keys ov).Nodup →
      objGet (TemplateInheritance.deep_merge res ov) k =
        match objGet ov k with
        | none => objGet res k
        | some v => some (mergeAtKey (objGet res k) v) := by
  induction ov with
  | nil => intro res k _; simp [TemplateInheritance.deep_merge, objGet]
  | cons kv rest ih =>
    intro res k hnd
    obtain ⟨k0, v0⟩ := kv
    simp only [keys, List.map_cons, List.nodup_cons] at hnd
    rw [deep_merge_cons]
    by_cases hk : k0 = k
    · subst hk
      rw [ih _ _ hnd.2]
      rw [objGet_eq_none_of_not_mem rest k0 (by simpa [keys] using hnd.1)]
      simp [objGet_cons_self, objGet_objSet_self]
    · rw [ih _ _ hnd.2]
      rw [objGet_cons_ne _ _ _ _ hk]
      rw [objGet_objSet_ne _ _ _ _ hk]

theorem service_merge_objGet (ov : List (String × JValue)) :
    ∀ (res : List (String × JValue)) (k : String), (keys ov).Nodup →
      objGet (TemplateService._merge_configs res ov) k =
        match objGet ov k with
        | none => objGet res k
        | some v => some (serviceMergeAtKey (objGet res k) v) := by
  induction ov with
  | nil => intro res k _; simp [TemplateService._merge_configs, objGet]
  | cons kv rest ih =>
    intro res k hnd
    obtain ⟨k0, v0⟩ := kv
    simp only [keys, List.map_cons, List.nodup_cons] at hnd
    rw [service_merge_cons]
    by_cases hk : k0 = k
    · subst hk
      rw [ih _ _ hnd.2]
      rw [objGet_eq_none_of_not_mem rest k0 (by simpa [keys] using hnd.1)]
      simp [objGet_cons_self, objGet_objSet_self]
    · rw [ih _ _ hnd.2]
      rw [objGet_cons_ne _ _ _ _ hk]
      rw [objGet_objSet_ne _ _ _ _ hk]

/-! ### Serialization round-trip lemmas -/

theorem asStrElem_map_str (l : List String) :
    optionMapM asStrElem (l.map JValue.str) = some l := by
  induction l with
  | nil => rfl
  | cons s rest ih => simp [optionMapM, asStrElem, ih]

theorem asOptStrList_optStrList (o : Option (List String)) :
    asOptStrList (optStrList o) = some o := by
  cases o with
  | none => rfl
  | some l => simp [optStrList, asOptStrList, asStrElem_map_str]

theorem asOptStr_optStr (o : Option String) : asOptStr (optStr o) = some o := by
  cases o <;> rfl

theorem asOptInt_optInt (o : Option Int) : asOptInt (optInt o) = some o := by
  cases o <;> rfl

theorem categoryValue_roundtrip (c : TemplateCategory) :
    TemplateCategory.ofValue c.value = some c := by
  cases c <;> rfl

theorem parameterTypeValue_roundtrip (t : ParameterType) :
    ParameterType.ofValue t.value = some t := by
  cases t <;> rfl

theorem TemplateParameter.from_dict_to_dict (p : TemplateParameter) :
    TemplateParameter.from_dict p.to_dict = some p := by
  obtain ⟨n, ty, d, df, rq, op, mn, mx, pa⟩ := p
  simp [TemplateParameter.to_dict, TemplateParameter.from_dict, objGet, pyGet,
    asStr, parameterTypeValue_roundtrip, asOptStrList_optStrList,
    asOptInt_optInt, asOptStr_optStr]

theorem params_from_dict_to_dict (ps : List TemplateParameter) :
    optionMapM TemplateParameter.from_dict (ps.map TemplateParameter.to_dict) = some ps := by
  induction ps with
  | nil => rfl
  | cons p rest ih => simp [optionMapM, TemplateParameter.from_dict_to_dict, ih]

/-- The schema `create_template` rebuilds through `from_dict` when the
parameter dicts are the serialized forms of well-formed parameters: name
and the other scalar fields as passed, version pinned to `1.0.0`, and no
requirements. -/
def createdSchema (name description : String) (category : TemplateCategory)
    (author : String) (ps : List TemplateParameter) (tags : List String)
    (ext : Option String) : TemplateSchema :=
  { name := name
    version := "1.0.0"
    description := description
    category := category
    author := author
    tags := tags
    parameters := ps
    extendsName := ext
    requirements := none }

/-! ### Concrete fixtures -/

/-- Schema of a template named `A` extending `B` (cyclic pair). -/
def schemaA : TemplateSchema :=
  { name := "A"
    version := "1.0.0"
    description := ""
    category := TemplateCategory.CUSTOM
    author := ""
    tags := []
    parameters := []
    extendsName := some "B"
    requirements := none }

/-- Schema of a template named `B` extending `A` (cyclic pair). -/
def schemaB : TemplateSchema :=
  { name := "B"
    version := "1.0.0"
    description := ""
    category := TemplateCategory.CUSTOM
    author := ""
    tags := []
    parameters := []
    extendsName := some "A"
    requirements := none }

/-- Template `A` of the cyclic pair. -/
def tA : Template := { schema := schemaA, config := [] }

/-- Template `B` of the cyclic pair. -/
def tB : Template := { schema := schemaB, config := [] }

/-- A store whose two templates extend each other: the `extends` chain of
`A` is the cycle A→B→A. -/
def storeAB : List Template := [tA, tB]

/-- Schema of a base template with no parent. -/
def schemaBase : TemplateSchema :=
  { name := "base"
    version := "1.0.0"
    description := ""
    category := TemplateCategory.CUSTOM
    author := ""
    tags := []
    parameters := []
    extendsName := none
    requirements := none }

/-- Schema of a child template extending `base`. -/
def schemaChild : TemplateSchema :=
  { name := "child"
    version := "1.0.0"
    description := ""
    category := TemplateCategory.CUSTOM
    author := ""
    tags := []
    parameters := []
    extendsName := some "base"
    requirements := none }

/-- The base template: its config carries the key `base_key`. -/
def tBase : Template := { schema := schemaBase, config := [("base_key", JValue.int 1)] }

/-- The child template: empty config of its own, `extends` points at
`base`. -/
def tChild : Template := { schema := schemaChild, config := [] }

/-- Store holding the base and the child template. -/
def storeBaseChild : List Template := [tBase, tChild]

/-- The provenance block `apply_template` writes for the child template
applied with no parameters. -/
def metaChild : JValue :=
  JValue.obj [("name", JValue.str "child"), ("version", JValue.str "1.0.0"),
    ("applied_at", JValue.null), ("parameters", JValue.obj [])]

/-- An integer-kind parameter with no bounds. -/
def pInt : TemplateParameter :=
  { name := "x"
    type := ParameterType.INTEGER
    description := ""
    default := JValue.null
    required := true
    options := none
    min_value := none
    max_value := none
    pattern := none }

/-- A select-kind parameter with options `a`, `b`. -/
def pSelect : TemplateParameter :=
  { name := "env"
    type := ParameterType.SELECT
    description := ""
    default := JValue.null
    required := true
    options := some ["a", "b"]
    min_value := none
    max_value := none
    pattern := none }

/-- A required string parameter that also declares a default. -/
def pRegion : TemplateParameter :=
  { name := "region"
    type := ParameterType.STRING
    description := ""
    default := JValue.str "us-east-1"
    required := true
    options := none
    min_value := none
    max_value := none
    pattern := none }

/-- A template whose only parameter is `pRegion` (required, with default). -/
def tRegion : Template :=
  { schema :=
      { name := "T"
        version := "1.0.0"
        description := ""
        category := TemplateCategory.CUSTOM
        author := ""
        tags := []
        parameters := [pRegion]
        extendsName := none
        requirements := none }
    config := [("region", JValue.str "\x7b\x7b region \x7d\x7d")] }

/-- An optional integer parameter with default `2`. -/
def pReplicas : TemplateParameter :=
  { name := "replicas"
    type := ParameterType.INTEGER
    description := ""
    default := JValue.int 2
    required := false
    options := none
    min_value := none
    max_value := none
    pattern := none }

/-- A template whose only parameter is the optional `pReplicas`; its config
holds the parameter's placeholder token. -/
def tReplicas : Template :=
  { schema :=
      { name := "R"
        version := "1.0.0"
        description := ""
        category := TemplateCategory.CUSTOM
        author := ""
        tags := []
        parameters := [pReplicas]
        extendsName := none
        requirements := none }
    config := [("replicas", JValue.str "\x7b\x7b replicas \x7d\x7d")] }

/-- A user-tier store already holding a template directory named `t`. -/
def storeWithT : UserStore :=
  [("t", (createdSchema "t" "old" TemplateCategory.CUSTOM "old-author" [] [] none,
    [("old_key", JValue.int 1)]))]

/-! ### Claim theorems -/

/-- C1: the claim says `validate_inheritance` on a template whose `extends`
chain contains a cycle returns `ok=false` with a circular-inheritance
error.  The code does not: for the cycle A→B→A the chain stops *before*
appending the repeated name, so it is `["A", "B"]` without a duplicate,
the `len(chain) != len(set(chain))` test never fires, and the call returns
`(True, [])`.  This theorem evaluates the code at that failing input. -/
theorem C1_validate_inheritance_accepts_cycle :
    TemplateInheritance.get_inheritance_chain storeAB "A" = ["A", "B"]
    ∧ TemplateInheritance.validate_inheritance storeAB "A" = (true, []) := by
  exact ⟨rfl, rfl⟩

/-- C2: the claim says `resolve_template` maintains the visited names and
terminates on a cyclic chain with a best-effort merge.  The code has no
visited set: on the cycle A→B→A it recurses indefinitely (a
`RecursionError` in Python).  This theorem shows that no recursion-depth
budget suffices for either template of the cycle: at every depth the model
of the call exhausts its budget instead of returning. -/
theorem C2_resolve_template_diverges_on_cycle :
    ∀ fuel : Nat,
      TemplateInheritance.resolve_template storeAB fuel tA = none
      ∧ TemplateInheritance.resolve_template storeAB fuel tB = none := by
  intro fuel
  induction fuel with
  | zero => exact ⟨rfl, rfl⟩
  | succ n ih =>
    constructor
    · show (match TemplateInheritance.resolve_template storeAB n tB with
        | none => none
        | some rb => some (TemplateInheritance._merge_templates rb tA)) = none
      rw [ih.2]
    · show (match TemplateInheritance.resolve_template storeAB n tA with
        | none => none
        | some rb => some (TemplateInheritance._merge_templates rb tB)) = none
      rw [ih.1]

/-- C3: the claim says `apply_template` applies the inheritance-resolved
template, so the produced document contains the base template's config
keys.  The code never calls the Composer: applying `child` (which extends
`base`, whose config holds `base_key`) produces a document without
`base_key`, even though resolving the same template does surface
`base_key = 1`.  This theorem evaluates both sides at that failing
input. -/
theorem C3_apply_template_skips_inheritance :
    TemplateService.apply_template storeBaseChild "child" none []
      = (true, some [("template", metaChild)])
    ∧ objGet [("template", metaChild)] "base_key" = none
    ∧ (TemplateInheritance.resolve_template storeBaseChild 2 tChild).map
        (fun t => objGet t.config "base_key") = some (some (JValue.int 1)) := by
  refine ⟨rfl, rfl, ?_⟩
  simp [TemplateInheritance.resolve_template, TemplateManager.get_template,
    TemplateInheritance._merge_templates, TemplateInheritance._merge_configs,
    TemplateInheritance.deep_merge, objGet, objSet, tChild, tBase, storeBaseChild,
    schemaChild, schemaBase, List.find?]

/-- C10: deserializing the serialized document form of any `TemplateSchema`
gives back the same schema field for field, including when `extends` or
`requirements` are absent (they serialize to `null` and read back as
absent, not as an error). -/
theorem C10_schema_roundtrip (s : TemplateSchema) :
    TemplateSchema.from_dict s.to_dict = some s := by
  obtain ⟨n, ver, d, c, a, tg, ps, ex, rq⟩ := s
  simp [TemplateSchema.to_dict, TemplateSchema.from_dict, objGet, pyGet, asStr,
    categoryValue_roundtrip, params_from_dict_to_dict, asStrElem_map_str,
    asOptStr_optStr, asOptStrList_optStrList]

/-- C4: the claim says the Apply Service merges a new config into an
existing project document under the same deep-merge rule as inheritance,
concatenating sequences bound in both documents.  The service's merge has
no sequence branch: merging existing `{"b": [1, 2]}` with new
`{"b": [3]}` yields `{"b": [3]}`, not the concatenation `{"b": [1, 2, 3]}`
the claim requires. -/
theorem C4_service_merge_overwrites_lists :
    TemplateService._merge_configs
      [("b", JValue.arr [JValue.int 1, JValue.int 2])]
      [("b", JValue.arr [JValue.int 3])]
    = [("b", JValue.arr [JValue.int 3])]
    ∧ TemplateService._merge_configs
      [("b", JValue.arr [JValue.int 1, JValue.int 2])]
      [("b", JValue.arr [JValue.int 3])]
    ≠ [("b", JValue.arr [JValue.int 1, JValue.int 2, JValue.int 3])] := by
  constructor
  · simp [TemplateService._merge_configs, objGet, objSet]
  · simp [TemplateService._merge_configs, objGet, objSet]

/-- C4 (amended): when `apply_template` merges the new config body into an
existing project document, keys bound to mappings in both documents are
merged recursively and *every* other key present in the new body —
sequences included — is overwritten by the new (template) value; sequences
are not concatenated.  Stated per key for every pair of documents (the
override's keys unique, as Python dicts guarantee), plus the concrete
two-key example. -/
theorem C4_service_merge_rule :
    (∀ (base ov : List (String × JValue)) (k : String), (keys ov).Nodup →
      objGet (TemplateService._merge_configs base ov) k =
        match objGet ov k with
        | none => objGet base k
        | some v => some (serviceMergeAtKey (objGet base k) v))
    ∧ TemplateService._merge_configs
        [("a", JValue.obj [("x", JValue.int 1)]), ("b", JValue.arr [JValue.int 1, JValue.int 2])]
        [("a", JValue.obj [("y", JValue.int 2)]), ("b", JValue.arr [JValue.int 3])]
      = [("a", JValue.obj [("x", JValue.int 1), ("y", JValue.int 2)]),
         ("b", JValue.arr [JValue.int 3])] := by
  constructor
  · intro base ov k h
    exact service_merge_objGet ov base k h
  · simp [TemplateService._merge_configs, objGet, objSet]

/-- C4 witness: the amended per-key rule applied at a concrete input. -/
theorem C4_witness :
    objGet (TemplateService._merge_configs
      [("b", JValue.arr [JValue.int 1, JValue.int 2])]
      [("b", JValue.arr [JValue.int 3])]) "b"
    = some (JValue.arr [JValue.int 3]) := by
  have h := C4_service_merge_rule.1
    [("b", JValue.arr [JValue.int 1, JValue.int 2])]
    [("b", JValue.arr [JValue.int 3])] "b" (by decide)
  rw [h]
  rfl

/-- C7: the Composer's deep merge satisfies the deep-merge rule per key for
every pair of documents whose override keys are unique: mappings on both
sides merge recursively, sequences on both sides concatenate with the base
elements first, and any other collision takes the child value; and the
concrete example merges base `{"a": {"x": 1}, "b": [1, 2]}` with child
`{"a": {"y": 2}, "b": [3]}` to `{"a": {"x": 1, "y": 2}, "b": [1, 2, 3]}`. -/
theorem C7_deep_merge_rule :
    (∀ (base ov : List (String × JValue)) (k : String), (keys ov).Nodup →
      objGet (TemplateInheritance.deep_merge base ov) k =
        match objGet ov k with
        | none => objGet base k
        | some v => some (mergeAtKey (objGet base k) v))
    ∧ TemplateInheritance.deep_merge
        [("a", JValue.obj [("x", JValue.int 1)]), ("b", JValue.arr [JValue.int 1, JValue.int 2])]
        [("a", JValue.obj [("y", JValue.int 2)]), ("b", JValue.arr [JValue.int 3])]
      = [("a", JValue.obj [("x", JValue.int 1), ("y", JValue.int 2)]),
         ("b", JValue.arr [JValue.int 1, JValue.int 2, JValue.int 3])] := by
  constructor
  · intro base ov k h
    exact deep_merge_objGet ov base k h
  · simp [TemplateInheritance.deep_merge, objGet, objSet]

/-- C7 witness: the per-key rule applied at a concrete input, showing the
base-first concatenation of a sequence key. -/
theorem C7_witness :
    objGet (TemplateInheritance.deep_merge
      [("b", JValue.arr [JValue.int 1, JValue.int 2])]
      [("b", JValue.arr [JValue.int 3])]) "b"
    = some (JValue.arr [JValue.int 1, JValue.int 2, JValue.int 3]) := by
  have h := C7_deep_merge_rule.1
    [("b", JValue.arr [JValue.int 1, JValue.int 2])]
    [("b", JValue.arr [JValue.int 3])] "b" (by decide)
  rw [h]
  rfl

/-- C5: the claim says `validate` never returns `ok=true` when the supplied
value's kind does not match the declared kind.  It does for one pairing:
Python's `isinstance(value, int)` accepts booleans (`bool` subclasses
`int`), so an integer-kind parameter validates a boolean value as OK. -/
theorem C5_integer_kind_accepts_bool :
    pInt.validate (JValue.bool true) = (true, "")
    ∧ pInt.type = ParameterType.INTEGER
    ∧ isinstance_bool (JValue.bool true) = true := by
  exact ⟨rfl, rfl, rfl⟩

/-- C5 (amended): for every parameter and supplied (non-null) value,
`validate` never returns `ok=true` on a kind mismatch — with the one
exception that a boolean counts as an integer (so the integer clause below
assumes the Python `isinstance(value, int)` check fails, which a boolean
does not) — never on an integer-kind value outside a declared
`min_value`/`max_value` bound, and never on a select value outside the
declared options, where the failure message names the parameter and lists
the allowed options. -/
theorem C5_validate_rejections :
    ∀ (p : TemplateParameter) (v : JValue),
      (p.type = ParameterType.STRING → isinstance_str v = false → isNull v = false →
        (p.validate v).1 = false)
      ∧ (p.type = ParameterType.INTEGER → isinstance_int v = false → isNull v = false →
        (p.validate v).1 = false)
      ∧ (p.type = ParameterType.BOOLEAN → isinstance_bool v = false → isNull v = false →
        (p.validate v).1 = false)
      ∧ (p.type = ParameterType.ARRAY → isinstance_list v = false → isNull v = false →
        (p.validate v).1 = false)
      ∧ (p.type = ParameterType.OBJECT → isinstance_dict v = false → isNull v = false →
        (p.validate v).1 = false)
      ∧ (∀ mn, p.type = ParameterType.INTEGER → isinstance_int v = true →
        p.min_value = some mn → toIntVal v < mn → (p.validate v).1 = false)
      ∧ (∀ mx, p.type = ParameterType.INTEGER → isinstance_int v = true →
        p.max_value = some mx → mx < toIntVal v → (p.validate v).1 = false)
      ∧ (p.type = ParameterType.SELECT → strMember v (p.options.getD []) = false →
        isNull v = false →
        p.validate v = (false, "Parameter '" ++ p.name ++ "' must be one of: "
          ++ String.intercalate ", " (p.options.getD []))) := by
  intro p v
  refine ⟨?_, ?_, ?_, ?_, ?_, ?_, ?_, ?_⟩
  · intro ht hs hn
    simp [TemplateParameter.validate, ht, hs, hn]
  · intro ht hi hn
    simp [TemplateParameter.validate, ht, hi, hn]
  · intro ht hb hn
    simp [TemplateParameter.validate, ht, hb, hn]
  · intro ht hl hn
    simp [TemplateParameter.validate, ht, hl, hn]
  · intro ht hd hn
    simp [TemplateParameter.validate, ht, hd, hn]
  · intro mn ht hi hmn hlt
    have hn : isNull v = false := by
      cases v <;> simp_all [isinstance_int, isNull]
    simp [TemplateParameter.validate, ht, hi, hmn, hlt, hn]
  · intro mx ht hi hmx hgt
    have hn : isNull v = false := by
      cases v <;> simp_all [isinstance_int, isNull]
    cases hmn : p.min_value with
    | none => simp [TemplateParameter.validate, ht, hi, hmn, hmx, hgt, hn]
    | some mn =>
      by_cases hlt : toIntVal v < mn
      · simp [TemplateParameter.validate, ht, hi, hmn, hmx, hlt, hn]
      · simp [TemplateParameter.validate, ht, hi, hmn, hmx, hlt, hgt, hn]
  · intro ht hm hn
    simp [TemplateParameter.validate, ht, hm, hn]

/-- C5 witness: the select clause applied to options `a, b` and value `c`
produces the failure message naming the parameter and listing the
options. -/
theorem C5_witness :
    pSelect.validate (JValue.str "c")
      = (false, "Parameter 'env' must be one of: a, b") := by
  have h := (C5_validate_rejections pSelect (JValue.str "c")).2.2.2.2.2.2.2 rfl rfl rfl
  simpa using h

/-- C6: the claim says the "parameter required" failure happens exactly
when the value is absent, `required=true` *and no default is declared*,
so a required parameter with a default should pass when absent.  The code
checks only `required`: `pRegion` is required and declares the default
`us-east-1`, yet validating an absent value fails. -/
theorem C6_required_with_default_still_fails :
    pRegion.validate JValue.null = (false, "Parameter 'region' is required")
    ∧ pRegion.required = true
    ∧ pRegion.default = JValue.str "us-east-1" := by
  exact ⟨rfl, rfl, rfl⟩

/-- C6 (amended): validating an absent (`None`) value fails with the
"parameter required" message exactly when `required=true`, regardless of
any declared default — defaults are layered only *after* validation, so
applying a template without supplying a required parameter fails even when
that parameter has a default, while an optional parameter's default is
substituted into the produced config. -/
theorem C6_required_check_ignores_default :
    (∀ p : TemplateParameter,
      p.validate JValue.null =
        if p.required then (false, "Parameter '" ++ p.name ++ "' is required")
        else (true, ""))
    ∧ Template.apply_parameters tRegion []
      = Except.error "Parameter validation failed: Parameter 'region' is required"
    ∧ Template.apply_parameters tReplicas []
      = Except.ok [("replicas", JValue.int 2)] := by
  refine ⟨?_, ?_, ?_⟩
  · intro p
    by_cases hr : p.required <;> simp [TemplateParameter.validate, isNull, hr]
  · rfl
  · simp [Template.apply_parameters, TemplateSchema.validate_parameters,
      TemplateSchema.get_default_values, tReplicas, pReplicas, pyGet, objGet, objSet,
      TemplateParameter.validate, isNull, substConfig, substPairs, substValue,
      placeholderToken]

/-- C8: whenever `apply_template` returns `False` — template not found or a
caught validation fault — the project's configuration document is
unchanged: the failure paths return before any write, and a validation
failure aborts with every validation error joined into the reported
message.  (The spec scopes this to the logical level; filesystem-level
partial writes are explicitly out of its guarantee.) -/
theorem C8_apply_template_atomic :
    ∀ (store : List Template) (name : String)
      (existing : Option (List (String × JValue))) (params : List (String × JValue)),
      ((TemplateService.apply_template store name existing params).1 = false →
        (TemplateService.apply_template store name existing params).2 = existing)
      ∧ (∀ (t : Template) (es : List String),
          TemplateManager.get_template store name = some t →
          t.schema.validate_parameters params = (false, es) →
          TemplateService.apply_template store name existing params = (false, existing)
          ∧ t.apply_parameters params
            = Except.error ("Parameter validation failed: " ++ String.intercalate "; " es)) := by
  intro store name existing params
  constructor
  · intro h
    cases hget : TemplateManager.get_template store name with
    | none => simp [TemplateService.apply_template, hget]
    | some t =>
      cases happ : t.apply_parameters params with
      | error e => simp [TemplateService.apply_template, hget, happ]
      | ok cfg =>
        exfalso
        simp [TemplateService.apply_template, hget, happ] at h
  · intro t es hget hval
    have happ : t.apply_parameters params
        = Except.error ("Parameter validation failed: " ++ String.intercalate "; " es) := by
      simp [Template.apply_parameters, hval]
    exact ⟨by simp [TemplateService.apply_template, hget, happ], happ⟩

/-- C8 witness: applying a missing template leaves a concrete existing
document untouched. -/
theorem C8_witness :
    (TemplateService.apply_template [] "missing" (some [("k", JValue.int 1)]) []).2
      = some [("k", JValue.int 1)] :=
  (C8_apply_template_atomic [] "missing" (some [("k", JValue.int 1)]) []).1 rfl

/-- C9: the claim says the Store's create fails when a user-tier template
directory with that name already exists and no overwrite was requested.
The code has no existence check and no overwrite flag
(`mkdir(exist_ok=True)` plus unconditional writes): creating `t` over a
store that already holds `t` succeeds and the directory now carries the new
schema and config in place of the old ones. -/
theorem C9_create_overwrites_existing :
    (objGet storeWithT "t").isSome = true
    ∧ (TemplateManager.create_template storeWithT "t" "new" TemplateCategory.CUSTOM
        "author" [("new_key", JValue.int 2)] [] [] none).2.isSome = true
    ∧ objGet (TemplateManager.create_template storeWithT "t" "new" TemplateCategory.CUSTOM
        "author" [("new_key", JValue.int 2)] [] [] none).1 "t"
      = some (createdSchema "t" "new" TemplateCategory.CUSTOM "author" [] [] none,
          [("new_key", JValue.int 2)])
    ∧ objGet storeWithT "t"
      = some (createdSchema "t" "old" TemplateCategory.CUSTOM "old-author" [] [] none,
          [("old_key", JValue.int 1)]) := by
  exact ⟨rfl, rfl, rfl, rfl⟩

/-- C9 (amended): `create_template` never fails because of an existing
user-tier template: for every prior store state it succeeds, returns the
in-memory template, and binds the name to the newly written schema and
config documents, silently replacing any previous binding.  (Parameter
dicts are taken in serialized well-formed form so the schema rebuild
succeeds, as in every call the repository makes.) -/
theorem C9_create_always_overwrites :
    ∀ (store : UserStore) (name description : String) (category : TemplateCategory)
      (author : String) (config : List (String × JValue)) (ps : List TemplateParameter)
      (tags : List String) (ext : Option String),
      TemplateManager.create_template store name description category author config
        (ps.map TemplateParameter.to_dict) tags ext
      = (objSet store name
          (createdSchema name description category author ps tags ext, config),
         some ⟨createdSchema name description category author ps tags ext, config⟩) := by
  intro store name description category author config ps tags ext
  simp [TemplateManager.create_template, TemplateSchema.from_dict, objGet, pyGet, asStr,
    categoryValue_roundtrip, params_from_dict_to_dict, asStrElem_map_str,
    asOptStr_optStr, asOptStrList_optStrList, asOptStrList, createdSchema]
